import Mathlib

/-!
Verification of the cert-manager discovery-scan-reconcile-notify pipeline.

This file is a shallow embedding of the Go sources of the repository:
the reconciler (`internal/service/cron_service.go`), the prober
(`internal/service/scanner.go`), the alert dispatcher
(`internal/service/notifier.go`), the persisted-state operations
(`internal/repository/domain_repo.go`) and the record source
(the Cloudflare service file).

Modelling conventions:
* Go `time.Time` values are integer nanoseconds; the Go zero time is the
  integer 0 (`IsZero` becomes `= 0`), and `Format("2006-01-02")` of the
  zero time is the string "0001-01-01".
* Go float64 arithmetic in day computations
  (`int(time.Until(t).Hours() / 24)`) is modelled as exact integer
  truncating division of nanoseconds by a day (`Int.tdiv`), which agrees
  with the float computation (truncation toward zero) on all inputs
  considered here.
* Network, WHOIS and TLS outcomes are oracles carried in environment
  records; retries index the oracle by attempt number.
* The bounded worker pool is linearized in stream order; the claims
  settled below concern the multiset of emitted events and the stored
  fields, which do not depend on the interleaving.
* Database writes are modelled as pure functions on a list of documents;
  write failures are not modelled (the code only logs them).
-/

namespace CertManager

/-- Nanoseconds per hour, matching Go `time.Hour`. -/
def nsPerHour : Int := 3600000000000

/-- Nanoseconds per day, matching Go `24 * time.Hour`. -/
def nsPerDay : Int := 86400000000000

/-- Nanoseconds in five seconds, the initial retry backoff (`5 * time.Second`). -/
def fiveSecondsNs : Int := 5000000000

/-- Go `int(d.Hours() / 24)` for a duration of `d` nanoseconds: float division
followed by conversion to int truncates toward zero, which is `Int.tdiv` on
the exact value. -/
def goDurationDays (d : Int) : Int := Int.tdiv d nsPerDay

/-- Status constants from `internal/domain/cert.go`. -/
def StatusActive : String := "active"

/-- Status constant for DNS-resolution failure. -/
def StatusUnresolvable : String := "unresolvable"

/-- Status constant for an expired certificate. -/
def StatusExpired : String := "expired"

/-- Status constant for the warning state. -/
def StatusWarning : String := "warning"

/-- Status constant for a dial or handshake failure. -/
def StatusConnectionError : String := "connection_error"

/-- Status constant for a freshly discovered, never probed host. -/
def StatusPending : String := "pending"

/-- The MonitoredHost record (`domain.SSLCertificate`): every field the
pipeline reads or writes, with Go zero values as defaults. -/
structure SSLCert where
  id : Nat := 0
  domainName : String := ""
  cfZoneID : String := ""
  zoneName : String := ""
  cfRecordID : String := ""
  cfRecordType : String := ""
  cfOriginValue : String := ""
  cfComment : String := ""
  isProxied : Bool := false
  port : Int := 0
  isIgnored : Bool := false
  autoRenew : Bool := false
  issuer : String := ""
  notBefore : Int := 0
  notAfter : Int := 0
  daysRemaining : Int := 0
  sans : List String := []
  tlsVersion : String := ""
  httpStatusCode : Int := 0
  latency : Int := 0
  isMatch : Bool := false
  resolvedIPs : List String := []
  resolvedRecord : String := ""
  domainExpiryDate : Int := 0
  domainDaysLeft : Int := 0
  status : String := ""
  errorMsg : String := ""
  lastCheckTime : Int := 0
  lastAlertTime : Int := 0
  createdAt : Int := 0
  deriving Repr, DecidableEq

/-- Byte-level prefix test on character lists (used to model the Go
strings package, whose Lean counterparts do not reduce in the kernel). -/
def charsStart : List Char → List Char → Bool
  | [], _ => true
  | _ :: _, [] => false
  | p :: ps, c :: cs => p = c && charsStart ps cs

/-- Substring search on character lists. -/
def charsContains (pat : List Char) : List Char → Bool
  | [] => charsStart pat []
  | c :: cs => charsStart pat (c :: cs) || charsContains pat cs

/-- Go `strings.Contains s pat`. -/
def strContains (s pat : String) : Bool := charsContains pat.data s.data

/-- Suffix test on character lists. -/
def charsEnd (pat s : List Char) : Bool := charsStart pat.reverse s.reverse

/-- The first component of Go `strings.Split name "."`: the characters up to
the first dot. -/
def firstLabel : List Char → List Char
  | [] => []
  | c :: cs => if c = '.' then [] else c :: firstLabel cs

/-- Go `strings.TrimSuffix s "."`: removes one trailing dot if present. -/
def trimDotSuffix (s : String) : String :=
  if charsEnd ['.'] s.data then String.mk s.data.dropLast else s

/-- Insertion step of the model of Go `sort.Strings`. -/
def insertStr (x : String) : List String → List String
  | [] => [x]
  | y :: ys => if x ≤ y then x :: y :: ys else y :: insertStr x ys

/-- Model of Go `sort.Strings` (insertion sort; same sorted result). -/
def sortStrings : List String → List String
  | [] => []
  | x :: xs => insertStr x (sortStrings xs)

/-- Go `t.Format("2006-01-02")`, abstracted: only the rendering of the zero date
("0001-01-01") is semantically relevant (the notifier scans for it); other
instants render as a placeholder token that never contains "0001-01-01". -/
def formatDate (t : Int) : String :=
  if t = 0 then "0001-01-01" else "D" ++ toString t

/-- shouldSkipDomain from cron_service.go: skip `_domainkey` records, records
whose first label starts with an underscore, and records whose first label
ends in "pri". -/
def shouldSkipDomain (name : String) : Bool :=
  if strContains name "_domainkey" then true
  else
    let p := firstLabel name.data
    charsStart ['_'] p || charsEnd ['p', 'r', 'i'] p

/-!
Persisted-state operations (`repository/domain_repo.go`).  The store is a
list of documents; `Upsert` updates the first document matching the
(domain_name, cf_record_id) key and inserts a fresh document otherwise,
`UpdateCertInfo` updates the first document matching the id.
-/

/-- Fields written by the `$set` clause of `Upsert`.  Note that `is_ignored`,
`auto_renew`, `last_alert_time` and `created_at` are absent from the clause,
while `port` is present. -/
def upsertSet (cert : SSLCert) (now : Int) (d : SSLCert) : SSLCert :=
  { d with
    cfZoneID := cert.cfZoneID
    zoneName := cert.zoneName
    isProxied := cert.isProxied
    cfRecordType := cert.cfRecordType
    cfOriginValue := cert.cfOriginValue
    port := cert.port
    cfComment := cert.cfComment
    status := cert.status
    lastCheckTime := now
    errorMsg := cert.errorMsg
    issuer := cert.issuer
    notBefore := cert.notBefore
    notAfter := cert.notAfter
    daysRemaining := cert.daysRemaining
    sans := cert.sans
    tlsVersion := cert.tlsVersion
    httpStatusCode := cert.httpStatusCode
    latency := cert.latency
    isMatch := cert.isMatch
    domainExpiryDate := cert.domainExpiryDate
    domainDaysLeft := cert.domainDaysLeft
    resolvedIPs := cert.resolvedIPs
    resolvedRecord := cert.resolvedRecord }

/-- Upsert key match: `domain_name` and `cf_record_id`. -/
def upsertKeyMatch (cert d : SSLCert) : Prop :=
  d.domainName = cert.domainName ∧ d.cfRecordID = cert.cfRecordID

instance (cert d : SSLCert) : Decidable (upsertKeyMatch cert d) := by
  unfold upsertKeyMatch; infer_instance

/-- Document created on the insert path of `Upsert`: only the key fields,
the `$set` fields and the `$setOnInsert` fields (`created_at := now`,
`is_ignored := false`) are present; everything else decodes to a zero value. -/
def upsertInsertDoc (cert : SSLCert) (now : Int) : SSLCert :=
  { upsertSet cert now
      { domainName := cert.domainName, cfRecordID := cert.cfRecordID } with
    createdAt := now
    isIgnored := false }

/-- Repo.Upsert on a document store (UpdateOne with upsert: first key match
is updated; otherwise a fresh document is appended). -/
def upsertStore (cert : SSLCert) (now : Int) : List SSLCert → List SSLCert
  | [] => [upsertInsertDoc cert now]
  | d :: ds =>
    if upsertKeyMatch cert d then upsertSet cert now d :: ds
    else d :: upsertStore cert now ds

/-- Fields written by `UpdateCertInfo` (keyed by id).  `is_ignored`,
`auto_renew` and `last_alert_time` are absent from the `$set` clause;
`port` is present. -/
def updateCertInfoSet (cert : SSLCert) (now : Int) (d : SSLCert) : SSLCert :=
  { d with
    issuer := cert.issuer
    notBefore := cert.notBefore
    notAfter := cert.notAfter
    daysRemaining := cert.daysRemaining
    status := cert.status
    errorMsg := cert.errorMsg
    sans := cert.sans
    port := cert.port
    lastCheckTime := now
    tlsVersion := cert.tlsVersion
    httpStatusCode := cert.httpStatusCode
    latency := cert.latency
    domainExpiryDate := cert.domainExpiryDate
    domainDaysLeft := cert.domainDaysLeft
    resolvedIPs := cert.resolvedIPs
    resolvedRecord := cert.resolvedRecord
    isMatch := cert.isMatch
    cfRecordType := cert.cfRecordType
    cfOriginValue := cert.cfOriginValue
    cfComment := cert.cfComment }

/-- Repo.UpdateCertInfo on a document store (UpdateOne without upsert). -/
def updateCertInfoStore (cert : SSLCert) (now : Int) : List SSLCert → List SSLCert
  | [] => []
  | d :: ds =>
    if d.id = cert.id then updateCertInfoSet cert now d :: ds
    else d :: updateCertInfoStore cert now ds

/-- mapRecordToDomain from the Cloudflare service: the MonitoredHost built
for a freshly listed DNS record.  All fields not listed in the Go literal
(port, SSL observation fields, timestamps) carry Go zero values. -/
def mapRecordToDomain (zoneID zoneName recordID recordName content
    recordType comment : String) (proxied : Bool)
    (expiryDate daysLeft : Int) : SSLCert :=
  { domainName := recordName
    cfZoneID := zoneID
    zoneName := zoneName
    cfRecordID := recordID
    isProxied := proxied
    domainExpiryDate := expiryDate
    domainDaysLeft := daysLeft
    cfOriginValue := content
    cfRecordType := recordType
    cfComment := comment
    isIgnored := false
    status := StatusPending }

/-!
Prober (`service/scanner.go`): DNS resolution, TLS handshake with retry,
certificate parsing, HTTP probe.
-/

/-- Data observable from a successful TLS handshake (the Go
`tls.ConnectionState` and its leading peer certificate).  `hostnameVerified`
is the outcome of `cert.VerifyHostname` (x509 SAN/CN verification treated as
an oracle), `version` the numeric TLS version. -/
structure TLSData where
  hasPeerCert : Bool := true
  issuerCN : String := ""
  issuerOrg : List String := []
  notBefore : Int := 0
  notAfter : Int := 0
  dnsNames : List String := []
  version : Nat := 0
  hostnameVerified : Bool := true
  deriving Repr, DecidableEq

/-- The `tlsVersions` table from scanner.go (TLS constant values from
crypto/tls: 0x0301 .. 0x0304). -/
def tlsVersions (v : Nat) : Option String :=
  if v = 769 then some "TLS 1.0"
  else if v = 770 then some "TLS 1.1"
  else if v = 771 then some "TLS 1.2"
  else if v = 772 then some "TLS 1.3"
  else none

/-- Environment for one `PerformNetworkScan` call: the outcomes of DNS
lookups, of each TLS dial attempt (indexed by attempt number, error value is
the raw Go error string), of the HTTP probe, whether more than two seconds
remain before the deadline when the HTTP step is reached, the wall clock
and the measured handshake latency in milliseconds. -/
structure ProbeEnv where
  dnsIPs : Except String (List String) := .ok []
  cname : Option String := none
  tls : Nat → Except String TLSData := fun _ => .error ""
  httpStatus : Option Int := none
  httpTimeLeft : Bool := true
  now : Int := 0
  elapsedMs : Int := 0

/-- parseDialError from scanner.go: classify a dial/handshake error message
by substring patterns; unmatched messages pass through verbatim. -/
def parseDialError (errMsg : String) : String :=
  if strContains errMsg "no such host" then "DNS 解析失敗 (No such host)"
  else if strContains errMsg "i/o timeout" then "連線逾時 (Timeout)"
  else if strContains errMsg "connection refused" then "連線被拒 (Connection Refused)"
  else if strContains errMsg "handshake failure" then "SSL 握手失敗 (Handshake Fail)"
  else errMsg

/-- parseCertInfo from scanner.go: extract issuer, validity window, SANs,
days remaining (truncating day division), TLS version, hostname match and
the active/expired status from a successful handshake.  With no peer
certificate the function returns the result untouched. -/
def parseCertInfo (now : Int) (t : TLSData) (r : SSLCert) : SSLCert :=
  if !t.hasPeerCert then r
  else
    let issuer :=
      if t.issuerCN = "" then
        match t.issuerOrg with
        | o :: _ => o
        | [] => ""
      else t.issuerCN
    let r := { r with
      issuer := issuer
      notBefore := t.notBefore
      notAfter := t.notAfter
      sans := t.dnsNames
      daysRemaining := goDurationDays (t.notAfter - now)
      tlsVersion := (tlsVersions t.version).getD "Unknown" }
    let r :=
      if t.hostnameVerified then { r with isMatch := true }
      else { r with isMatch := false, errorMsg := "憑證名稱不符 (Hostname mismatch)" }
    if r.daysRemaining < 0 then { r with status := StatusExpired }
    else { r with status := StatusActive }

/-- resolveDNS from scanner.go: look up the IPs (sorted, joined into the
resolved record) and, best-effort, the canonical name; a lookup error marks
the result unresolvable. -/
def resolveDNS (env : ProbeEnv) (r : SSLCert) : Except String SSLCert ×  SSLCert :=
  match env.dnsIPs with
  | .error e =>
    (.error e, { r with status := StatusUnresolvable, errorMsg := "DNS 解析失敗: " ++ e })
  | .ok ips =>
    let ips := sortStrings ips
    let r := { r with resolvedIPs := ips, resolvedRecord := String.intercalate ", " ips }
    let r :=
      match env.cname with
      | some raw =>
        let c := trimDotSuffix raw
        if c ≠ "" ∧ c ≠ r.domainName then { r with resolvedRecord := c } else r
      | none => r
    (.ok r, r)

/-- withRetry loop body from scanner.go: run the operation for attempts
`i, i+1, ...` while fuel remains, sleeping `initialDelay * 2^i` between
attempts; returns the first success or the last error together with the
list of sleeps performed. -/
def retryLoop (op : Nat → Except String TLSData) (initialDelay : Int)
    (attempts : Nat) (i : Nat) : Nat → Except String TLSData × List Int
  | 0 => (.error "", [])
  | fuel + 1 =>
    match op i with
    | .ok a => (.ok a, [])
    | .error e =>
      if i < attempts - 1 then
        let rest := retryLoop op initialDelay attempts (i + 1) fuel
        (rest.1, initialDelay * 2 ^ i :: rest.2)
      else (.error e, [])

/-- withRetry from scanner.go (context cancellation not modelled). -/
def withRetry (op : Nat → Except String TLSData) (attempts : Nat)
    (initialDelay : Int) : Except String TLSData × List Int :=
  retryLoop op initialDelay attempts 0 attempts

/-- PerformNetworkScan from scanner.go: default the port to 443, resolve
DNS (failure short-circuits to `unresolvable`), run the TLS handshake under
`withRetry 3 (5*time.Second)` (failure yields a classified error message,
zeroed certificate fields, `isMatch := true`, and status `connection_error`
unless the message mentions DNS, in which case `unresolvable` — and no HTTP
probe), then parse the certificate, record the latency and, if time
remains, record the HTTP status code. -/
def performNetworkScan (env : ProbeEnv) (domainName : String) (port0 : Int) : SSLCert :=
  let port := if port0 = 0 then 443 else port0
  let r : SSLCert :=
    { domainName := domainName, port := port, status := StatusActive,
      lastCheckTime := env.now }
  match resolveDNS env r with
  | (.error _, r) => r
  | (.ok _, r) =>
    match withRetry env.tls 3 fiveSecondsNs with
    | (.error e, _) =>
      let errMsg := parseDialError e
      let r := { r with
        latency := 0, errorMsg := errMsg, daysRemaining := 0,
        issuer := "", isMatch := true }
      if strContains errMsg "DNS" then { r with status := StatusUnresolvable }
      else { r with status := StatusConnectionError }
    | (.ok t, _) =>
      let r := parseCertInfo env.now t r
      let r := { r with latency := env.elapsedMs }
      if env.httpTimeLeft then
        match env.httpStatus with
        | some code => { r with httpStatusCode := code }
        | none => r
      else r

/-!
Scanner orchestration (`ScanOne` and its helpers) and the operation-event
log.  Events are recorded at the point where the code calls
`Notifier.NotifyOperation`; notifier-side template rendering, enable flags
and channel queues are delivery concerns modelled separately.
-/

/-- Event types from notifier.go. -/
inductive EvType
  | add
  | delete
  | renew
  | update
  | zoneAdd
  | zoneDelete
  deriving Repr, DecidableEq

/-- One NotifyOperation call: event type, target name, details text. -/
structure OpEvent where
  etype : EvType
  target : String
  details : String
  deriving Repr, DecidableEq

/-- inheritConfig from scanner.go: copy identity, Cloudflare fields, the
user-owned flags and the WHOIS baseline from the prior record onto the fresh
probe result; the port is only backfilled when the probe result has port 0
and the prior record does not. -/
def inheritConfig (newC oldC : SSLCert) : SSLCert :=
  let n := { newC with
    id := oldC.id
    cfZoneID := oldC.cfZoneID
    zoneName := oldC.zoneName
    cfRecordID := oldC.cfRecordID
    isIgnored := oldC.isIgnored
    autoRenew := oldC.autoRenew
    isProxied := oldC.isProxied
    cfOriginValue := oldC.cfOriginValue
    cfRecordType := oldC.cfRecordType
    cfComment := oldC.cfComment
    domainExpiryDate := oldC.domainExpiryDate
    domainDaysLeft := oldC.domainDaysLeft }
  if n.port = 0 ∧ oldC.port ≠ 0 then { n with port := oldC.port } else n

/-- Environment for one `ScanOne` call: the probe environment plus the
WHOIS oracle (`none` models a failed registration lookup). -/
structure ScanEnv where
  probe : ProbeEnv := {}
  whois : Option (Int × Int) := none

/-- syncWhois from scanner.go: requery the registration authority when no
expiry is cached or fewer than 60 days were left; otherwise recompute the
cached days-left arithmetically from the stored expiry. -/
def syncWhois (env : ScanEnv) (newC oldC : SSLCert) : SSLCert :=
  let shouldQuery := oldC.domainExpiryDate = 0 ∨ oldC.domainDaysLeft < 60
  if shouldQuery then
    match env.whois with
    | some (expiry, daysLeft) =>
      { newC with domainExpiryDate := expiry, domainDaysLeft := daysLeft }
    | none => newC
  else if newC.domainExpiryDate ≠ 0 then
    { newC with domainDaysLeft := goDurationDays (newC.domainExpiryDate - env.probe.now) }
  else newC

/-- Renewal change text from generateDiff. -/
def renewChangeMsg (oldC newC : SSLCert) : String :=
  "♻️ <b>SSL 憑證已更新 (Renewed)</b>\n      📅 舊到期日: <del>" ++
    formatDate oldC.notAfter ++ "</del>\n      📅 新到期日: <b>" ++
    formatDate newC.notAfter ++ "</b>\n      ⏳ 剩餘天數: <b>" ++
    toString newC.daysRemaining ++ " 天</b>"

/-- generateDiff from scanner.go: renewal detection (new expiry more than
24h after a non-zero prior expiry), status transitions (silenced toward
`connection_error`), Cloudflare origin/type changes, proxy flips, and error
message changes outside `connection_error`. -/
def generateDiff (oldC newC : SSLCert) : List String :=
  let changes : List String := []
  let changes :=
    if oldC.notAfter ≠ 0 ∧ newC.notAfter > oldC.notAfter + nsPerDay then
      changes ++ [renewChangeMsg oldC newC]
    else changes
  let changes :=
    if oldC.status ≠ newC.status then
      if newC.status = StatusConnectionError then changes
      else if oldC.status = StatusConnectionError ∧ newC.status = StatusActive then
        changes ++ ["✅ <b>連線已恢復</b>\n      狀態: " ++ oldC.status ++ " ➔ " ++ newC.status]
      else changes ++ ["狀態: " ++ oldC.status ++ " ➔ " ++ newC.status]
    else changes
  let changes :=
    if oldC.cfOriginValue ≠ newC.cfOriginValue ∨ oldC.cfRecordType ≠ newC.cfRecordType then
      changes ++ ["Cloudflare 設定變更 [" ++ newC.cfRecordType ++ "]: " ++
        oldC.cfOriginValue ++ " ➔ " ++ newC.cfOriginValue]
    else changes
  let changes :=
    if oldC.isProxied ≠ newC.isProxied then
      changes ++ ["⚡ <b>代理狀態</b>: " ++
        (if oldC.isProxied then "☁️ Proxy" else "🛡 DNS Only") ++ " ➔ " ++
        (if newC.isProxied then "☁️ Proxy" else "🛡 DNS Only")]
    else changes
  let changes :=
    if oldC.errorMsg ≠ newC.errorMsg then
      if newC.status ≠ StatusConnectionError ∧ newC.errorMsg ≠ "" then
        changes ++ ["錯誤: " ++ newC.errorMsg]
      else changes
    else changes
  changes

/-- notifyChanges from scanner.go: silent for a prior `pending` record
(first scan after discovery); otherwise a non-empty diff produces one
NotifyOperation call, typed `renew` when the renewal condition holds and
`update` otherwise. -/
def notifyChanges (newC oldC : SSLCert) (changes : List String) : List OpEvent :=
  if oldC.status = StatusPending then []
  else if changes ≠ [] then
    let etype :=
      if oldC.notAfter ≠ 0 ∧ newC.notAfter > oldC.notAfter + nsPerDay then
        EvType.renew
      else EvType.update
    [{ etype := etype, target := newC.domainName,
       details := String.intercalate "\n" changes }]
  else []

/-- Result of one ScanOne call: the merged and persisted record, the diff,
and the operation events emitted. -/
structure ScanOutcome where
  cert : SSLCert
  changes : List String
  events : List OpEvent
  deriving Repr, DecidableEq

/-- ScanOne from scanner.go: network scan, config inheritance, WHOIS sync,
diff generation and change notification.  The `UpdateCertInfo` persistence
and the `CheckAndNotify` alert call are modelled separately
(`updateCertInfoStore`, `checkAndNotify`). -/
def scanOne (env : ScanEnv) (oldC : SSLCert) : ScanOutcome :=
  let newC := performNetworkScan env.probe oldC.domainName oldC.port
  let newC := inheritConfig newC oldC
  let newC := syncWhois env newC oldC
  let changes := generateDiff oldC newC
  { cert := newC, changes := changes, events := notifyChanges newC oldC changes }

/-!
Notifier (`service/notifier.go`): the CheckAndNotify alert pipeline.
-/

/-- The slice of `domain.NotificationSettings` that CheckAndNotify reads. -/
structure NotificationSettings where
  notifyOnExpiry : Bool := false
  deriving Repr, DecidableEq

/-- Result of a CheckAndNotify call: whether an alert message was handed to
the delivery channels, the collected alert reasons (the rendered message
always contains the joined reason string), and the host record with its
last-alert timestamp updated on delivery. -/
structure NotifyResult where
  delivered : Bool
  reasons : List String
  cert : SSLCert
  deriving Repr, DecidableEq

/-- The alert-reason collection of CheckAndNotify (notifier.go): the reason
strings gathered from the connection-error, SSL-expiry, registration-expiry,
unresolvable and hostname-mismatch conditions, together with the
`shouldNotify` flag — which only the connection-error and SSL-expiry
branches ever set. -/
def collectAlertReasons (cert : SSLCert) : List String × Bool :=
  let reasons : List String := []
  let shouldNotify := false
  let (reasons, shouldNotify) :=
    if cert.status = StatusConnectionError then
      (reasons ++ ["❌ " ++ cert.errorMsg], true)
    else (reasons, shouldNotify)
  let (reasons, shouldNotify) :=
    if cert.notAfter ≠ 0 ∧ cert.status ≠ StatusConnectionError then
      if cert.daysRemaining < 30 ∧ 0 ≤ cert.daysRemaining then
        (reasons ++ ["SSL憑證剩餘 " ++ toString cert.daysRemaining ++ " 天"], true)
      else if cert.daysRemaining < 0 then
        (reasons ++ ["SSL憑證已過期"], true)
      else (reasons, shouldNotify)
    else (reasons, shouldNotify)
  let reasons :=
    if cert.domainExpiryDate ≠ 0 then
      if cert.domainDaysLeft < 30 ∧ 0 ≤ cert.domainDaysLeft then
        reasons ++ ["域名註冊剩餘 " ++ toString cert.domainDaysLeft ++ " 天"]
      else if cert.domainDaysLeft < 0 then reasons ++ ["域名註冊已過期"]
      else reasons
    else reasons
  let reasons :=
    if cert.status = StatusUnresolvable then
      reasons ++ ["❌ 域名無法解析 (Unresolvable)"]
    else reasons
  let reasons :=
    if ¬cert.isMatch ∧ cert.status ≠ StatusUnresolvable then
      reasons ++ ["❌ 憑證錯誤 (Hostname Mismatch)"]
    else reasons
  (reasons, shouldNotify)

/-- CheckAndNotify from notifier.go: skip ignored hosts and hosts with a
zero certificate expiry (unless in connection error); collect the alert
reasons; deliver only when some reason exists, an SSL-expiry or
connection-error condition set the `shouldNotify` flag, the host is outside
the 24-hour anti-spam window, and expiry notifications are enabled; on
delivery the last-alert time of the host is set to the current instant. -/
def checkAndNotify (cert : SSLCert) (settings : NotificationSettings)
    (now : Int) : NotifyResult :=
  let silent : NotifyResult := { delivered := false, reasons := [], cert := cert }
  if cert.isIgnored then silent
  else if cert.notAfter = 0 ∧ cert.status ≠ StatusConnectionError then silent
  else
    let rs := collectAlertReasons cert
    if rs.1 = [] then silent
    else if ¬rs.2 then silent
    else if now - cert.lastAlertTime < nsPerDay then silent
    else if ¬settings.notifyOnExpiry then silent
    else
      { delivered := true, reasons := rs.1,
        cert := { cert with lastAlertTime := now } }

/-!
Reconciler (`service/cron_service.go`): the streaming merge, zone change
detection, deletion pass, placeholder bookkeeping and the PerformSync
safety valve.
-/

/-- checkCFDiff from cron_service.go: compare origin value, record type and
proxy flag between the stored record and the scanned record. -/
def checkCFDiff (oldC newC : SSLCert) : List String :=
  let changes : List String := []
  let changes :=
    if oldC.cfOriginValue ≠ newC.cfOriginValue then
      changes ++ ["🎯 <b>指向目標 (Content)</b>:\n      🔴 <code>" ++ oldC.cfOriginValue ++
        "</code>\n      🟢 <code>" ++ newC.cfOriginValue ++ "</code>"]
    else changes
  let changes :=
    if oldC.cfRecordType ≠ newC.cfRecordType then
      changes ++ ["🏷 <b>類型 (Type)</b>: " ++ oldC.cfRecordType ++ " ➔ " ++ newC.cfRecordType]
    else changes
  let changes :=
    if oldC.isProxied ≠ newC.isProxied then
      changes ++ ["⚡ <b>代理狀態</b>:\n      " ++
        (if oldC.isProxied then "☁️ Proxy (橘雲)" else "🛡 DNS Only (灰雲)") ++
        "\n      ⬇️\n      " ++
        (if newC.isProxied then "☁️ Proxy (橘雲)" else "🛡 DNS Only (灰雲)")]
    else changes
  changes

/-- Details text of sendNewDomainNotification from cron_service.go. -/
def newDomainDetails (cert : SSLCert) : String :=
  "🎯 <b>目標</b>: <code>" ++ cert.cfOriginValue ++ "</code>\n🏷 <b>類型</b>: " ++
    cert.cfRecordType ++ "\n⚡ <b>Proxy</b>: " ++
    (if cert.isProxied then "☁️ Proxy (橘雲)" else "🛡 DNS Only (灰雲)") ++
    "\n📊 <b>狀態</b>: " ++
    (if cert.status = StatusActive then "✅ 正常" else "⚠️ " ++ cert.status) ++
    "\n📅 <b>域名到期</b>: " ++
    (if cert.domainExpiryDate = 0 then "Unknown" else formatDate cert.domainExpiryDate)

/-- The dbMap built at the start of PerformSync: hosts keyed by domain name,
later database rows overwriting earlier ones as in Go map assignment. -/
def dbMapOf (db : List SSLCert) (name : String) : Option SSLCert :=
  (db.filter fun d => decide (d.domainName = name)).getLast?

/-- The existingZones map built at the start of PerformSync: zone names of
database rows with a non-empty zone. -/
def existingZonesOf (db : List SSLCert) (z : String) : Bool :=
  db.any fun d => decide (d.zoneName ≠ "" ∧ d.zoneName = z)

/-- Per-run environment: a scan environment per hostname. -/
structure SyncEnv where
  scan : String → ScanEnv

/-- The provider-field overlay applied to an existing record in
processUpsertsStream (identity, user settings and observed baseline are
kept from the database row). -/
def overlayCF (existing cfD : SSLCert) : SSLCert :=
  { existing with
    cfZoneID := cfD.cfZoneID
    cfRecordID := cfD.cfRecordID
    cfRecordType := cfD.cfRecordType
    cfOriginValue := cfD.cfOriginValue
    isProxied := cfD.isProxied
    cfComment := cfD.cfComment
    zoneName := cfD.zoneName }

/-- The worker body of processUpsertsStream for one streamed record: merge
with the database row (or start a pending record), run ScanOne, then emit a
Cloudflare-change update event for existing hosts or an addition event for
new hosts — the latter muted when the zone of the record is not among the zones
already known to the database. -/
def cronProcessHost (env : SyncEnv) (dbMap : String → Option SSLCert)
    (existingZones : String → Bool) (cfD : SSLCert) : List OpEvent :=
  match dbMap cfD.domainName with
  | some existing =>
    let targetCert := overlayCF existing cfD
    let out := scanOne (env.scan cfD.domainName) targetCert
    let cfChanges := checkCFDiff existing out.cert
    out.events ++
      (if cfChanges ≠ [] then
        [{ etype := EvType.update, target := targetCert.domainName,
           details := String.intercalate "\n" cfChanges }]
      else [])
  | none =>
    let targetCert := { cfD with status := StatusPending }
    let out := scanOne (env.scan cfD.domainName) targetCert
    out.events ++
      (if existingZones cfD.zoneName then
        [{ etype := EvType.add, target := out.cert.domainName,
           details := newDomainDetails out.cert }]
      else [])

/-- Events of the streaming merge: skipped records produce none; the worker
pool is linearized in stream order. -/
def processUpsertsStreamEvents (env : SyncEnv) (dbMap : String → Option SSLCert)
    (existingZones : String → Bool) (cf : List SSLCert) : List OpEvent :=
  (cf.filter fun d => !shouldSkipDomain d.domainName).flatMap
    (cronProcessHost env dbMap existingZones)

/-- Distinct non-empty zone names of a record list (the zone maps built by
detectZoneChanges; Go map iteration linearized by `dedup`). -/
def zonesOf (l : List SSLCert) : List String :=
  ((l.map fun d => d.zoneName).filter fun z => decide (z ≠ "")).dedup

/-- countSubdomains from cron_service.go. -/
def countSubdomains (domains : List SSLCert) (zoneName : String) : Nat :=
  (domains.filter fun d => decide (d.zoneName = zoneName)).length

/-- Details text of the new-zone notification in detectZoneChanges. -/
def zoneAddDetails (subCount : Nat) : String :=
  "來源: Cloudflare Sync\n偵測到新的主域名已加入 Cloudflare，將自動納入監控。\n包含子域名數量: " ++
    toString subCount ++ " 個\n(為避免打擾，該主域名下的子域名新增通知已自動靜音 🔕)"

/-- Details text of the zone-removed notification in detectZoneChanges. -/
def zoneDeleteDetails (subCount : Nat) : String :=
  "來源: Cloudflare Sync\n該主域名已從 Cloudflare 移除，系統將自動清理相關子域名。\n影響子域名數量: " ++
    toString subCount ++ " 個"

/-- detectZoneChanges from cron_service.go: one zone-discovered event per
provider zone unknown to the database, one zone-removed event per database
zone absent from the provider result. -/
def detectZoneChanges (cf db : List SSLCert) : List OpEvent :=
  let cfZones := zonesOf cf
  let dbZones := zonesOf db
  (cfZones.filter fun z => decide (z ∉ dbZones)).map
      (fun z => { etype := EvType.zoneAdd, target := z,
                  details := zoneAddDetails (countSubdomains cf z) })
    ++
  (dbZones.filter fun z => decide (z ∉ cfZones)).map
      (fun z => { etype := EvType.zoneDelete, target := z,
                  details := zoneDeleteDetails (countSubdomains db z) })

/-- Details text of the per-host deletion notification. -/
def deleteDetails : String :=
  "來源: Cloudflare Sync\n說明: 該域名已從 Cloudflare 移除，系統已同步刪除。"

/-- Whether processDeletions deletes a given database row: placeholders of
zones still present at the provider are protected; otherwise rows absent
from the provider result and not matching the skip policy are deleted. -/
def processDeletionDecision (cfNames activeZones : List String) (dbD : SSLCert) : Bool :=
  if dbD.cfRecordType = "placeholder" ∧ dbD.zoneName ∈ activeZones then false
  else if dbD.domainName ∉ cfNames ∧ ¬shouldSkipDomain dbD.domainName then
    if dbD.cfRecordType = "placeholder" ∧ dbD.zoneName ∈ activeZones then false
    else true
  else false

/-- processDeletions from cron_service.go: the deleted row names and the
per-row deletion events. -/
def processDeletions (cf db : List SSLCert) : List String × List OpEvent :=
  let cfNames := cf.map fun d => d.domainName
  let activeZones := zonesOf cf
  let deleted := db.filter (processDeletionDecision cfNames activeZones)
  (deleted.map fun d => d.domainName,
   deleted.map fun d =>
     { etype := EvType.delete, target := d.domainName, details := deleteDetails })

/-- Zones marked as having real (non-skipped) data during the stream; the
code records the zone name of every non-skipped record verbatim. -/
def activeZonesWithRealData (cf : List SSLCert) : List String :=
  ((cf.filter fun d => !shouldSkipDomain d.domainName).map fun d => d.zoneName).dedup

/-- Every zone name seen on the stream (recorded before the skip filter). -/
def discoveredZones (cf : List SSLCert) : List String :=
  (cf.map fun d => d.zoneName).dedup

/-- The values of the dbMap (rows that are the last with their name),
over which cleanupPlaceholders iterates. -/
def dbValues (db : List SSLCert) : List SSLCert :=
  db.filter fun d => decide (dbMapOf db d.domainName = some d)

/-- Placeholder rows deleted by cleanupPlaceholders: placeholders whose zone
produced at least one real record this run. -/
def cleanupPlaceholderDeletes (db cf : List SSLCert) : List String :=
  ((dbValues db).filter fun d =>
      decide (d.cfRecordType = "placeholder") &&
        decide (d.zoneName ∈ activeZonesWithRealData cf)).map
    fun d => d.domainName

/-- Placeholder rows created by cleanupPlaceholders: zones discovered this
run with no real record and no database row under the name of the zone. -/
def cleanupPlaceholderCreates (db cf : List SSLCert) : List String :=
  (discoveredZones cf).filter fun z =>
    decide (z ∉ activeZonesWithRealData cf) && decide (dbMapOf db z = none)

/-- Outcome of one PerformSync run: the operation events emitted, the names
deleted from the store (placeholder cleanup plus the deletion pass), the
placeholder names created, and whether the run returned an error. -/
structure SyncResult where
  events : List OpEvent
  deletedNames : List String
  createdPlaceholders : List String
  isError : Bool
  deriving Repr, DecidableEq

/-- PerformSync from cron_service.go: load the database snapshot, run the
streaming merge (including placeholder bookkeeping), then — safety valve —
if the provider stream yielded zero records while the database is
non-empty, skip zone detection and the whole deletion pass and report an
error; otherwise detect zone changes and process deletions. -/
def performSync (env : SyncEnv) (db cf : List SSLCert) : SyncResult :=
  let dbMap := dbMapOf db
  let ez := existingZonesOf db
  let streamEvents := processUpsertsStreamEvents env dbMap ez cf
  let cleanupDel := cleanupPlaceholderDeletes db cf
  let cleanupNew := cleanupPlaceholderCreates db cf
  if cf = [] ∧ db ≠ [] then
    { events := streamEvents, deletedNames := cleanupDel,
      createdPlaceholders := cleanupNew, isError := true }
  else
    let zoneEvents := detectZoneChanges cf db
    let dels := processDeletions cf db
    { events := streamEvents ++ zoneEvents ++ dels.2,
      deletedNames := cleanupDel ++ dels.1,
      createdPlaceholders := cleanupNew, isError := false }

/-- Floor-based day count, written exactly as the specification words the
computation ("floor(hours-until-expiry / 24)"), for comparison with the
truncating computation of the code. -/
def specFloorDays (d : Int) : Int := Int.fdiv d nsPerDay

/-!
Concrete scenarios used by witnesses and counterexamples.
-/

/-- A healthy certificate observed by a successful handshake. -/
def wTLSData : TLSData :=
  { issuerCN := "R3", notAfter := 100 * nsPerDay, version := 772,
    hostnameVerified := true }

/-- A scan environment in which every step succeeds. -/
def wScanEnv : ScanEnv :=
  { probe := { dnsIPs := .ok ["1.2.3.4"], tls := fun _ => .ok wTLSData,
               httpStatus := some 200, elapsedMs := 12 } }

/-- A trivial per-run environment. -/
def c1env : SyncEnv := { scan := fun _ => {} }

/-- A one-host persisted set. -/
def c1db : List SSLCert := [{ domainName := "api.example.com", id := 1 }]

/-- A persisted host with user-set port, ignored flag and auto-renew flag. -/
def c2doc : SSLCert :=
  { id := 7, domainName := "api.example.com", cfRecordID := "rec1",
    port := 8443, isIgnored := true, autoRenew := true, status := StatusActive }

/-- The record the record source builds for the same host. -/
def c2rs : SSLCert :=
  mapRecordToDomain "zone1" "example.com" "rec1" "api.example.com" "1.2.3.4"
    "A" "" true 0 0

/-- A pending prior record that nevertheless has a non-zero expiry. -/
def c3old : SSLCert :=
  { domainName := "api.example.com", status := StatusPending,
    notAfter := nsPerDay, port := 443 }

/-- An active prior record about to observe a renewed certificate. -/
def c3oldActive : SSLCert :=
  { domainName := "api.example.com", status := StatusActive,
    notAfter := nsPerDay, port := 443, isMatch := true }

/-- A host within the SSL-expiry alert window. -/
def c4cert : SSLCert :=
  { domainName := "api.example.com", status := StatusActive,
    notAfter := 40 * nsPerDay, daysRemaining := 10, isMatch := true,
    lastAlertTime := 0 }

/-- Settings with expiry alerts enabled. -/
def c4settings : NotificationSettings := { notifyOnExpiry := true }

/-- A probe environment whose certificate expired 36 hours ago. -/
def c5env : ProbeEnv :=
  { dnsIPs := .ok ["1.2.3.4"],
    tls := fun _ => .ok { notAfter := -36 * nsPerHour, version := 771,
                          hostnameVerified := true } }

/-- A probe environment whose DNS resolution fails. -/
def c6env : ProbeEnv := { dnsIPs := .error "lookup api.example.com: no such host" }

/-- A probe environment whose dial fails with a DNS-style error on every
attempt. -/
def c7env : ProbeEnv :=
  { dnsIPs := .ok ["1.2.3.4"],
    tls := fun _ => .error "dial tcp 1.2.3.4:443: lookup api.example.com: no such host" }

/-- A probe environment whose dial times out on every attempt. -/
def c7envTimeout : ProbeEnv :=
  { dnsIPs := .ok ["1.2.3.4"],
    tls := fun _ => .error "dial tcp 1.2.3.4:443: i/o timeout" }

/-- One record of the freshly discovered zone. -/
def c8host (n : String) : SSLCert :=
  { domainName := n, zoneName := "new.example.com", cfRecordID := "r-" ++ n,
    cfRecordType := "A", cfOriginValue := "1.1.1.1" }

/-- A persisted set knowing one other zone. -/
def c8db : List SSLCert :=
  [{ id := 1, domainName := "x.old.com", cfRecordID := "r9",
     zoneName := "old.com", status := StatusActive,
     notAfter := 50 * nsPerDay, isMatch := true }]

/-- Provider records of this run: three eligible hosts of the new zone. -/
def c8cf : List SSLCert :=
  [c8host "h1.new.example.com", c8host "h2.new.example.com",
   c8host "h3.new.example.com"]

/-- Per-run environment for the new-zone scenario. -/
def c8env : SyncEnv := { scan := fun _ => wScanEnv }

/-- A host whose certificate is healthy but whose registration is nearly
expired and whose hostname mismatches. -/
def c9cert : SSLCert :=
  { domainName := "api.example.com", status := StatusActive,
    notAfter := 200 * nsPerDay, daysRemaining := 100,
    domainExpiryDate := 20 * nsPerDay, domainDaysLeft := 5,
    isMatch := false, lastAlertTime := 0 }

/-- The same host with the certificate also inside the expiry window. -/
def c9certLow : SSLCert := { c9cert with daysRemaining := 10 }

/-- Settings with expiry alerts enabled (registration/mismatch scenario). -/
def c9settings : NotificationSettings := { notifyOnExpiry := true }

/-- A freshly discovered host before its first probe. -/
def c10old : SSLCert := { domainName := "fresh.example.com", status := StatusPending }

/-- The two DNS-failure signals of a probe cycle: the resolver step erred,
or every TLS dial attempt failed and the classified dial error message
mentions DNS (the Go `strings.Contains(errMsg, "DNS")` test, which the
"no such host" classification produces). -/
def dnsResolutionFailed (env : ProbeEnv) : Prop :=
  (∃ e, env.dnsIPs = .error e) ∨
  (∃ e, (withRetry env.tls 3 fiveSecondsNs).1 = .error e ∧
    strContains (parseDialError e) "DNS" = true)

/-!
Helper lemmas.
-/

theorem parseCertInfo_domainName (now : Int) (t : TLSData) (r : SSLCert) :
    (parseCertInfo now t r).domainName = r.domainName := by
  unfold parseCertInfo
  by_cases hpc : (!t.hasPeerCert) = true
  · rw [if_pos hpc]
  · rw [if_neg hpc]
    by_cases hv : t.hostnameVerified = true <;>
      simp only [hv, if_true, if_false, Bool.false_eq_true, ite_true, ite_false] <;>
      split_ifs <;> rfl

theorem parseCertInfo_port (now : Int) (t : TLSData) (r : SSLCert) :
    (parseCertInfo now t r).port = r.port := by
  unfold parseCertInfo
  by_cases hpc : (!t.hasPeerCert) = true
  · rw [if_pos hpc]
  · rw [if_neg hpc]
    by_cases hv : t.hostnameVerified = true <;>
      simp only [hv, if_true, if_false, Bool.false_eq_true, ite_true, ite_false] <;>
      split_ifs <;> rfl

theorem performNetworkScan_domainName (env : ProbeEnv) (n : String) (p : Int) :
    (performNetworkScan env n p).domainName = n := by
  unfold performNetworkScan resolveDNS
  rcases env.dnsIPs with e | ips <;>
    rcases env.cname with _ | c <;>
    rcases h : withRetry env.tls 3 fiveSecondsNs with ⟨res, sl⟩ <;>
    rcases res with e2 | t <;>
    rcases env.httpStatus with _ | code <;>
    simp only [h] <;>
    split_ifs <;>
    simp [parseCertInfo_domainName]

theorem performNetworkScan_port (env : ProbeEnv) (n : String) (p : Int) :
    (performNetworkScan env n p).port = if p = 0 then 443 else p := by
  unfold performNetworkScan resolveDNS
  rcases env.dnsIPs with e | ips <;>
    rcases env.cname with _ | c <;>
    rcases h : withRetry env.tls 3 fiveSecondsNs with ⟨res, sl⟩ <;>
    rcases res with e2 | t <;>
    rcases env.httpStatus with _ | code <;>
    simp only [h] <;>
    split_ifs <;>
    simp_all [parseCertInfo_port]

theorem inheritConfig_flags (newC oldC : SSLCert) :
    (inheritConfig newC oldC).isIgnored = oldC.isIgnored ∧
    (inheritConfig newC oldC).autoRenew = oldC.autoRenew ∧
    (inheritConfig newC oldC).domainName = newC.domainName := by
  simp only [inheritConfig]
  split_ifs <;> simp

theorem inheritConfig_port (newC oldC : SSLCert)
    (h2 : newC.port ≠ 0) : (inheritConfig newC oldC).port = newC.port := by
  simp only [inheritConfig]
  split_ifs with hc
  · exact absurd hc.1 h2
  · simp

theorem syncWhois_frame (env : ScanEnv) (newC oldC : SSLCert) :
    (syncWhois env newC oldC).isIgnored = newC.isIgnored ∧
    (syncWhois env newC oldC).autoRenew = newC.autoRenew ∧
    (syncWhois env newC oldC).port = newC.port ∧
    (syncWhois env newC oldC).domainName = newC.domainName ∧
    (syncWhois env newC oldC).notAfter = newC.notAfter ∧
    (syncWhois env newC oldC).status = newC.status := by
  simp only [syncWhois]
  rcases env.whois with _ | ⟨x, y⟩ <;> split_ifs <;> simp

theorem scanOne_domainName (env : ScanEnv) (oldC : SSLCert) :
    (scanOne env oldC).cert.domainName = oldC.domainName := by
  show (syncWhois env
      (inheritConfig (performNetworkScan env.probe oldC.domainName oldC.port) oldC) oldC).domainName
    = oldC.domainName
  rw [(syncWhois_frame env _ oldC).2.2.2.1,
    (inheritConfig_flags _ oldC).2.2,
    performNetworkScan_domainName]

theorem scanOne_events_eq (env : ScanEnv) (oldC : SSLCert) :
    (scanOne env oldC).events =
      notifyChanges (scanOne env oldC).cert oldC
        (generateDiff oldC (scanOne env oldC).cert) := rfl

theorem notifyChanges_etype (newC oldC : SSLCert) (changes : List String) :
    ∀ e ∈ notifyChanges newC oldC changes,
      e.etype = EvType.renew ∨ e.etype = EvType.update := by
  unfold notifyChanges
  split_ifs <;> simp_all

theorem cronProcessHost_add_event (env : SyncEnv) (dbMap : String → Option SSLCert)
    (ez : String → Bool) (cfD : SSLCert) :
    ∀ e ∈ cronProcessHost env dbMap ez cfD,
      e.etype ≠ EvType.zoneAdd ∧ e.etype ≠ EvType.zoneDelete ∧
      e.etype ≠ EvType.delete ∧
      (e.etype = EvType.add → ez cfD.zoneName = true ∧ e.target = cfD.domainName) := by
  intro e he
  unfold cronProcessHost at he
  rcases hdb : dbMap cfD.domainName with _ | existing <;> rw [hdb] at he <;>
      simp only [] at he
  · rcases List.mem_append.1 he with h | h
    · rw [scanOne_events_eq] at h
      rcases notifyChanges_etype _ _ _ e h with h2 | h2 <;>
        simp [h2]
    · split_ifs at h with hz
      · simp only [List.mem_singleton] at h
        subst h
        refine ⟨by simp, by simp, by simp, fun _ => ⟨hz, ?_⟩⟩
        show (scanOne (env.scan cfD.domainName) { cfD with status := StatusPending }).cert.domainName
          = cfD.domainName
        rw [scanOne_domainName]
      · simp at h
  · rcases List.mem_append.1 he with h | h
    · rw [scanOne_events_eq] at h
      rcases notifyChanges_etype _ _ _ e h with h2 | h2 <;>
        simp [h2]
    · split_ifs at h with hz
      · simp only [List.mem_singleton] at h
        subst h
        simp
      · simp at h

theorem mem_zonesOf (l : List SSLCert) (z : String) :
    z ∈ zonesOf l ↔ z ≠ "" ∧ ∃ d ∈ l, d.zoneName = z := by
  unfold zonesOf
  rw [List.mem_dedup, List.mem_filter]
  simp only [List.mem_map, decide_eq_true_eq]
  constructor
  · rintro ⟨⟨d, hd, rfl⟩, hz⟩
    exact ⟨hz, d, hd, rfl⟩
  · rintro ⟨hz, d, hd, rfl⟩
    exact ⟨⟨d, hd, rfl⟩, hz⟩

theorem existingZonesOf_eq_false (db : List SSLCert) (z : String) (hz : z ≠ "")
    (h : z ∉ zonesOf db) : existingZonesOf db z = false := by
  unfold existingZonesOf
  rw [List.any_eq_false]
  intro d hd
  simp only [decide_eq_true_eq, not_and]
  intro _ hzn
  exact h ((mem_zonesOf db z).2 ⟨hz, d, hd, hzn⟩)

theorem cleanupPlaceholderDeletes_nil (db : List SSLCert) :
    cleanupPlaceholderDeletes db [] = [] := by
  unfold cleanupPlaceholderDeletes activeZonesWithRealData
  simp

theorem checkAndNotify_delivered_cert (cert : SSLCert) (s : NotificationSettings)
    (now : Int) (h : (checkAndNotify cert s now).delivered = true) :
    (checkAndNotify cert s now).cert = { cert with lastAlertTime := now } := by
  simp only [checkAndNotify] at h ⊢
  split_ifs at h ⊢ <;> first | rfl | simp at h

theorem checkAndNotify_spam (cert : SSLCert) (s : NotificationSettings) (now : Int)
    (h : now - cert.lastAlertTime < nsPerDay) :
    (checkAndNotify cert s now).delivered = false := by
  simp only [checkAndNotify]
  split_ifs <;> first | rfl | exact absurd h (by assumption)

/-!
Claims.
-/

/-- C1: Safety valve — for every run in which the persisted set holds N>0
hosts and the record source yields zero records, nothing is deleted from
the persisted set (the deletion pass and the placeholder cleanup both
remove nothing) and PerformSync reports failure. -/
theorem safetyValve_C1 (env : SyncEnv) (db : List SSLCert) (h : db ≠ []) :
    (performSync env db []).deletedNames = [] ∧
    (performSync env db []).isError = true := by
  simp only [performSync]
  rw [if_pos (show True ∧ db ≠ [] from ⟨trivial, h⟩)]
  exact ⟨cleanupPlaceholderDeletes_nil db, rfl⟩

theorem safetyValve_C1_witness :
    (performSync c1env c1db []).deletedNames = [] ∧
    (performSync c1env c1db []).isError = true :=
  safetyValve_C1 c1env c1db (by decide)

/-- C10: first-scan silence — for every host whose prior persisted status is
"pending", ScanOne emits no operation event (neither update nor renewal) in
that cycle, regardless of the probe result. -/
theorem firstScanSilence_C10 (env : ScanEnv) (oldC : SSLCert)
    (h : oldC.status = StatusPending) :
    (scanOne env oldC).events = [] := by
  rw [scanOne_events_eq]
  unfold notifyChanges
  rw [if_pos h]

theorem firstScanSilence_C10_witness :
    (scanOne wScanEnv c10old).events = [] :=
  firstScanSilence_C10 wScanEnv c10old (by decide)

/-- C4: anti-spam window — a delivered alert stamps the last-alert
time with the delivery instant, and a second CheckAndNotify invocation
within 24 hours that sees this timestamp delivers nothing; hence two
invocations within 24 hours deliver at most one alert. -/
theorem antiSpam_C4 (cert : SSLCert) (s : NotificationSettings) (t1 t2 : Int)
    (h : (checkAndNotify cert s t1).delivered = true)
    (hlt : t2 - t1 < nsPerDay) :
    (checkAndNotify cert s t1).cert.lastAlertTime = t1 ∧
    (checkAndNotify (checkAndNotify cert s t1).cert s t2).delivered = false := by
  have hc := checkAndNotify_delivered_cert cert s t1 h
  refine ⟨by rw [hc], ?_⟩
  rw [hc]
  exact checkAndNotify_spam _ s t2 (by simpa using hlt)

theorem antiSpam_C4_witness :
    (checkAndNotify c4cert c4settings (2 * nsPerDay)).cert.lastAlertTime = 2 * nsPerDay ∧
    (checkAndNotify (checkAndNotify c4cert c4settings (2 * nsPerDay)).cert c4settings
        (2 * nsPerDay + 5)).delivered = false :=
  antiSpam_C4 c4cert c4settings (2 * nsPerDay) (2 * nsPerDay + 5) (by decide) (by decide)

theorem generateDiff_renew_ne_nil (oldC newC : SSLCert)
    (h : oldC.notAfter ≠ 0 ∧ newC.notAfter > oldC.notAfter + nsPerDay) :
    generateDiff oldC newC ≠ [] := by
  simp only [generateDiff]
  rw [if_pos h]
  split_ifs <;> simp

/-- C3 (counterexample): a prior record with status "pending" and a non-zero
not_after, probed to an expiry more than 24 hours later, receives zero
renewal events — notifyChanges silences the whole first scan after
discovery, so "exactly one renewal event" fails. -/
theorem renewalEvent_C3_counterexample :
    c3old.notAfter ≠ 0 ∧
    (scanOne wScanEnv c3old).cert.notAfter > c3old.notAfter + nsPerDay ∧
    ((scanOne wScanEnv c3old).events.filter fun e =>
        decide (e.etype = EvType.renew)).length = 0 := by
  decide

/-- C3 (amended): for every host whose prior status is not "pending", whose
prior not_after is non-zero and whose newly probed not_after exceeds the
prior one by more than 24 hours, the scan cycle emits exactly one operation
event, and it is a renewal event (EventRenew), not a generic update. -/
theorem renewalEvent_C3_amended (env : ScanEnv) (oldC : SSLCert)
    (hpend : oldC.status ≠ StatusPending) (hnz : oldC.notAfter ≠ 0)
    (hren : (scanOne env oldC).cert.notAfter > oldC.notAfter + nsPerDay) :
    ((scanOne env oldC).events.map fun e => e.etype) = [EvType.renew] := by
  rw [scanOne_events_eq]
  simp only [notifyChanges]
  rw [if_neg hpend,
    if_pos (generateDiff_renew_ne_nil oldC _ ⟨hnz, hren⟩),
    if_pos (show oldC.notAfter ≠ 0 ∧
        (scanOne env oldC).cert.notAfter > oldC.notAfter + nsPerDay from ⟨hnz, hren⟩)]
  rfl

theorem renewalEvent_C3_witness :
    ((scanOne wScanEnv c3oldActive).events.map fun e => e.etype) = [EvType.renew] :=
  renewalEvent_C3_amended wScanEnv c3oldActive (by decide) (by decide) (by decide)

theorem parseCertInfo_fields (now : Int) (t : TLSData) (r : SSLCert)
    (hpeer : t.hasPeerCert = true) :
    (parseCertInfo now t r).daysRemaining = goDurationDays (t.notAfter - now) ∧
    (parseCertInfo now t r).isMatch = t.hostnameVerified ∧
    (parseCertInfo now t r).status =
      (if goDurationDays (t.notAfter - now) < 0 then StatusExpired else StatusActive) := by
  unfold parseCertInfo
  by_cases hv : t.hostnameVerified = true <;>
    simp only [hpeer, hv, Bool.not_true, Bool.false_eq_true, if_false, if_true,
      ite_true, ite_false, Bool.false_eq_true] <;>
    split_ifs <;>
    simp_all

theorem performNetworkScan_tlsOK (env : ProbeEnv) (name : String) (port : Int)
    (ips : List String) (t : TLSData)
    (hdns : env.dnsIPs = .ok ips)
    (htls : (withRetry env.tls 3 fiveSecondsNs).1 = .ok t)
    (hpeer : t.hasPeerCert = true) :
    (performNetworkScan env name port).daysRemaining = goDurationDays (t.notAfter - env.now) ∧
    (performNetworkScan env name port).isMatch = t.hostnameVerified ∧
    (performNetworkScan env name port).status =
      (if goDurationDays (t.notAfter - env.now) < 0 then StatusExpired else StatusActive) := by
  simp only [performNetworkScan, resolveDNS, hdns]
  rcases hw : withRetry env.tls 3 fiveSecondsNs with ⟨res, sl⟩
  rw [hw] at htls
  simp only [] at htls
  subst htls
  rcases env.cname with _ | c <;>
    rcases env.httpStatus with _ | code <;>
    simp only [hw] <;>
    split_ifs <;>
    simp [parseCertInfo_fields _ _ _ hpeer] <;>
    first
      | omega
      | (intro h2; omega)

/-- C5 (counterexample): "days-remaining equals floor(hours-until-expiry /
24)" fails — a certificate that expired 36 hours ago yields stored
days-remaining -1 (Go truncates toward zero) while the floor of -36/24 is
-2; the host is nevertheless marked expired here. -/
theorem daysRemaining_C5_counterexample :
    (performNetworkScan c5env "api.example.com" 443).daysRemaining = -1 ∧
    specFloorDays ((-36) * nsPerHour - 0) = -2 ∧
    (performNetworkScan c5env "api.example.com" 443).status = StatusExpired := by
  decide

/-- C5 (amended): on TLS handshake success with a peer certificate,
days-remaining equals the nanosecond interval to the expiry divided by one
day truncating toward zero (equal to the floor exactly when the interval is
non-negative), the status is `expired` exactly when days-remaining < 0 and
`active` exactly when days-remaining ≥ 0, and is_match is the outcome of
SAN/CN verification against the probed hostname. -/
theorem daysRemaining_C5_amended (env : ProbeEnv) (name : String) (port : Int)
    (ips : List String) (t : TLSData)
    (hdns : env.dnsIPs = .ok ips)
    (htls : (withRetry env.tls 3 fiveSecondsNs).1 = .ok t)
    (hpeer : t.hasPeerCert = true) :
    (performNetworkScan env name port).daysRemaining = goDurationDays (t.notAfter - env.now) ∧
    (0 ≤ t.notAfter - env.now →
      goDurationDays (t.notAfter - env.now) = specFloorDays (t.notAfter - env.now)) ∧
    ((performNetworkScan env name port).status = StatusExpired ↔
      (performNetworkScan env name port).daysRemaining < 0) ∧
    ((performNetworkScan env name port).status = StatusActive ↔
      0 ≤ (performNetworkScan env name port).daysRemaining) ∧
    (performNetworkScan env name port).isMatch = t.hostnameVerified := by
  obtain ⟨hd, hm, hs⟩ := performNetworkScan_tlsOK env name port ips t hdns htls hpeer
  refine ⟨hd, ?_, ?_, ?_, hm⟩
  · intro hnn
    simp only [goDurationDays, specFloorDays]
    rw [Int.tdiv_eq_ediv hnn (show (0 : Int) ≤ nsPerDay by decide),
      Int.fdiv_eq_ediv _ (show (0 : Int) ≤ nsPerDay by decide)]
  · rw [hs, hd]
    split_ifs with hlt
    · simp [hlt]
    · simp [show StatusActive ≠ StatusExpired from by decide]
      omega
  · rw [hs, hd]
    split_ifs with hlt
    · simp [show StatusExpired ≠ StatusActive from by decide]
      omega
    · simp
      omega

theorem daysRemaining_C5_witness :
    (performNetworkScan wScanEnv.probe "api.example.com" 443).daysRemaining =
      goDurationDays (wTLSData.notAfter - wScanEnv.probe.now) ∧
    (0 ≤ wTLSData.notAfter - wScanEnv.probe.now →
      goDurationDays (wTLSData.notAfter - wScanEnv.probe.now) =
        specFloorDays (wTLSData.notAfter - wScanEnv.probe.now)) ∧
    ((performNetworkScan wScanEnv.probe "api.example.com" 443).status = StatusExpired ↔
      (performNetworkScan wScanEnv.probe "api.example.com" 443).daysRemaining < 0) ∧
    ((performNetworkScan wScanEnv.probe "api.example.com" 443).status = StatusActive ↔
      0 ≤ (performNetworkScan wScanEnv.probe "api.example.com" 443).daysRemaining) ∧
    (performNetworkScan wScanEnv.probe "api.example.com" 443).isMatch =
      wTLSData.hostnameVerified :=
  daysRemaining_C5_amended wScanEnv.probe "api.example.com" 443 ["1.2.3.4"] wTLSData
    rfl rfl rfl

theorem parseCertInfo_status (now : Int) (t : TLSData) (r : SSLCert) :
    (parseCertInfo now t r).status = r.status ∨
    (parseCertInfo now t r).status = StatusExpired ∨
    (parseCertInfo now t r).status = StatusActive := by
  unfold parseCertInfo
  by_cases hpc : (!t.hasPeerCert) = true
  · rw [if_pos hpc]; left; rfl
  · rw [if_neg hpc]
    by_cases hv : t.hostnameVerified = true <;>
      simp only [hv, if_true, if_false, Bool.false_eq_true, ite_true, ite_false] <;>
      split_ifs <;> simp

theorem statusRange_of_parse (now : Int) (t : TLSData) (r : SSLCert)
    (hr : r.status = StatusActive) :
    (parseCertInfo now t r).status = StatusActive ∨
    (parseCertInfo now t r).status = StatusExpired := by
  rcases parseCertInfo_status now t r with h | h | h <;> simp_all

theorem performNetworkScan_dialFail_fields (env : ProbeEnv) (name : String)
    (port : Int) (ips : List String) (e : String)
    (hdns : env.dnsIPs = .ok ips)
    (hfail : (withRetry env.tls 3 fiveSecondsNs).1 = .error e) :
    (performNetworkScan env name port).errorMsg = parseDialError e ∧
    (performNetworkScan env name port).isMatch = true ∧
    (performNetworkScan env name port).httpStatusCode = 0 ∧
    (performNetworkScan env name port).latency = 0 ∧
    (performNetworkScan env name port).daysRemaining = 0 ∧
    (performNetworkScan env name port).issuer = "" ∧
    (performNetworkScan env name port).notBefore = 0 ∧
    (performNetworkScan env name port).notAfter = 0 ∧
    (performNetworkScan env name port).sans = [] ∧
    (performNetworkScan env name port).tlsVersion = "" ∧
    (performNetworkScan env name port).status =
      (if strContains (parseDialError e) "DNS" = true then StatusUnresolvable
       else StatusConnectionError) := by
  simp only [performNetworkScan, resolveDNS, hdns]
  rcases hw : withRetry env.tls 3 fiveSecondsNs with ⟨res, sl⟩
  rw [hw] at hfail
  simp only [] at hfail
  subst hfail
  rcases env.cname with _ | c <;>
    simp only [hw] <;>
    split_ifs <;>
    simp_all

theorem performNetworkScan_tlsOK_statusRange (env : ProbeEnv) (name : String)
    (port : Int) (ips : List String) (t : TLSData)
    (hdns : env.dnsIPs = .ok ips)
    (htls : (withRetry env.tls 3 fiveSecondsNs).1 = .ok t) :
    (performNetworkScan env name port).status = StatusActive ∨
    (performNetworkScan env name port).status = StatusExpired := by
  simp only [performNetworkScan, resolveDNS, hdns]
  rcases hw : withRetry env.tls 3 fiveSecondsNs with ⟨res, sl⟩
  rw [hw] at htls
  simp only [] at htls
  subst htls
  rcases env.cname with _ | c <;>
    rcases env.httpStatus with _ | code <;>
    simp only [hw] <;>
    split_ifs <;>
    exact statusRange_of_parse env.now t _ rfl

/-- C6: for every probe cycle, a resulting status of `unresolvable` implies
a DNS-resolution failure signal (resolver error, or dial failure classified
as DNS) and that none of the TLS/HTTP observation fields — issuer, validity
window, SANs, TLS version, HTTP status code — were populated; moreover when
the resolver step itself failed, no further probe step ran (no resolved IPs,
no resolved record, no latency). -/
theorem unresolvable_C6 (env : ProbeEnv) (name : String) (port : Int)
    (h : (performNetworkScan env name port).status = StatusUnresolvable) :
    dnsResolutionFailed env ∧
    (performNetworkScan env name port).issuer = "" ∧
    (performNetworkScan env name port).notBefore = 0 ∧
    (performNetworkScan env name port).notAfter = 0 ∧
    (performNetworkScan env name port).sans = [] ∧
    (performNetworkScan env name port).tlsVersion = "" ∧
    (performNetworkScan env name port).httpStatusCode = 0 ∧
    ((∃ e, env.dnsIPs = .error e) →
      (performNetworkScan env name port).resolvedIPs = [] ∧
      (performNetworkScan env name port).resolvedRecord = "" ∧
      (performNetworkScan env name port).latency = 0) := by
  rcases hdns : env.dnsIPs with e | ips
  · refine ⟨Or.inl ⟨e, hdns⟩, ?_, ?_, ?_, ?_, ?_, ?_, fun _ => ⟨?_, ?_, ?_⟩⟩ <;>
      simp [performNetworkScan, resolveDNS, hdns]
  · rcases hw : withRetry env.tls 3 fiveSecondsNs with ⟨res, sl⟩
    rcases res with e2 | t
    · obtain ⟨herr, him, hhttp, hlat, hdays, hiss, hnb, hna, hsans, htlsv, hst⟩ :=
        performNetworkScan_dialFail_fields env name port ips e2 hdns (by rw [hw])
      by_cases hdnsmsg : strContains (parseDialError e2) "DNS" = true
      · refine ⟨Or.inr ⟨e2, by rw [hw], hdnsmsg⟩, hiss, hnb, hna, hsans, htlsv, hhttp, ?_⟩
        rintro ⟨e0, he⟩
        exact absurd he (by simp)
      · rw [hst, if_neg hdnsmsg] at h
        exact absurd h (by decide)
    · rcases performNetworkScan_tlsOK_statusRange env name port ips t hdns (by rw [hw])
          with hst | hst <;>
        rw [hst] at h <;>
        exact absurd h (by decide)

theorem unresolvable_C6_witness :
    dnsResolutionFailed c6env ∧
    (performNetworkScan c6env "api.example.com" 443).issuer = "" ∧
    (performNetworkScan c6env "api.example.com" 443).notBefore = 0 ∧
    (performNetworkScan c6env "api.example.com" 443).notAfter = 0 ∧
    (performNetworkScan c6env "api.example.com" 443).sans = [] ∧
    (performNetworkScan c6env "api.example.com" 443).tlsVersion = "" ∧
    (performNetworkScan c6env "api.example.com" 443).httpStatusCode = 0 ∧
    ((∃ e, c6env.dnsIPs = .error e) →
      (performNetworkScan c6env "api.example.com" 443).resolvedIPs = [] ∧
      (performNetworkScan c6env "api.example.com" 443).resolvedRecord = "" ∧
      (performNetworkScan c6env "api.example.com" 443).latency = 0) :=
  unresolvable_C6 c6env "api.example.com" 443 rfl

theorem withRetry3_error (op : Nat → Except String TLSData) (d : Int) (e : String)
    (h : (withRetry op 3 d).1 = .error e) :
    (withRetry op 3 d).2 = [d * 2 ^ 0, d * 2 ^ 1] ∧ op 2 = .error e := by
  unfold withRetry retryLoop at h ⊢
  rcases h0 : op 0 with e0 | t0 <;>
    rcases h1 : op 1 with e1 | t1 <;>
    rcases h2 : op 2 with e2 | t2 <;>
    simp_all [retryLoop]

/-- C7 (counterexample): "if all attempts fail the probe result has status
`connection_error`" fails — when every dial attempt errors with a
no-such-host message, the classified message mentions DNS and the status
becomes `unresolvable` instead. -/
theorem connError_C7_counterexample :
    (withRetry c7env.tls 3 fiveSecondsNs).1 =
      .error "dial tcp 1.2.3.4:443: lookup api.example.com: no such host" ∧
    (performNetworkScan c7env "api.example.com" 443).status ≠ StatusConnectionError ∧
    (performNetworkScan c7env "api.example.com" 443).status = StatusUnresolvable :=
  ⟨rfl, by decide, by decide⟩

/-- C7 (amended): the TLS handshake is retried up to 3 attempts (indices
0..2) with exponential backoff sleeps of 5s and 10s (5s·2^i); if all
attempts fail, the result carries the error message classified by pattern
(DNS / timeout / refused / handshake-failure / generic — a connection-reset
message has no dedicated pattern and passes through as generic),
hostname-match is set to true, no HTTP probe is performed, the certificate
fields stay empty, and the status is `connection_error` unless the
classified message mentions DNS, in which case it is `unresolvable`. -/
theorem connError_C7_amended (env : ProbeEnv) (name : String) (port : Int)
    (ips : List String) (e : String)
    (hdns : env.dnsIPs = .ok ips)
    (hfail : (withRetry env.tls 3 fiveSecondsNs).1 = .error e) :
    (performNetworkScan env name port).errorMsg = parseDialError e ∧
    (performNetworkScan env name port).isMatch = true ∧
    (performNetworkScan env name port).httpStatusCode = 0 ∧
    (performNetworkScan env name port).latency = 0 ∧
    (performNetworkScan env name port).daysRemaining = 0 ∧
    (performNetworkScan env name port).issuer = "" ∧
    (performNetworkScan env name port).status =
      (if strContains (parseDialError e) "DNS" = true then StatusUnresolvable
       else StatusConnectionError) ∧
    (withRetry env.tls 3 fiveSecondsNs).2 = [fiveSecondsNs * 2 ^ 0, fiveSecondsNs * 2 ^ 1] ∧
    env.tls 2 = .error e ∧
    parseDialError "read tcp: connection reset by peer" = "read tcp: connection reset by peer" := by
  obtain ⟨herr, him, hhttp, hlat, hdays, hiss, _, _, _, _, hst⟩ :=
    performNetworkScan_dialFail_fields env name port ips e hdns hfail
  obtain ⟨hsl, hop⟩ := withRetry3_error env.tls fiveSecondsNs e hfail
  exact ⟨herr, him, hhttp, hlat, hdays, hiss, hst, hsl, hop, by decide⟩

theorem connError_C7_witness :
    (performNetworkScan c7envTimeout "api.example.com" 443).errorMsg =
      parseDialError "dial tcp 1.2.3.4:443: i/o timeout" ∧
    (performNetworkScan c7envTimeout "api.example.com" 443).isMatch = true ∧
    (performNetworkScan c7envTimeout "api.example.com" 443).httpStatusCode = 0 ∧
    (performNetworkScan c7envTimeout "api.example.com" 443).latency = 0 ∧
    (performNetworkScan c7envTimeout "api.example.com" 443).daysRemaining = 0 ∧
    (performNetworkScan c7envTimeout "api.example.com" 443).issuer = "" ∧
    (performNetworkScan c7envTimeout "api.example.com" 443).status =
      (if strContains (parseDialError "dial tcp 1.2.3.4:443: i/o timeout") "DNS" = true
       then StatusUnresolvable else StatusConnectionError) ∧
    (withRetry c7envTimeout.tls 3 fiveSecondsNs).2 =
      [fiveSecondsNs * 2 ^ 0, fiveSecondsNs * 2 ^ 1] ∧
    c7envTimeout.tls 2 = .error "dial tcp 1.2.3.4:443: i/o timeout" ∧
    parseDialError "read tcp: connection reset by peer" = "read tcp: connection reset by peer" :=
  connError_C7_amended c7envTimeout "api.example.com" 443 ["1.2.3.4"]
    "dial tcp 1.2.3.4:443: i/o timeout" rfl rfl

/-- C9 (counterexample): a non-ignored host outside the anti-spam window
with notifications enabled, registration days-left below 30 and a hostname
mismatch — but a healthy certificate — gets NO delivered alert: the
registration and mismatch conditions never set the `shouldNotify` flag. -/
theorem regMismatch_C9_counterexample :
    c9cert.isIgnored = false ∧
    c9cert.domainExpiryDate ≠ 0 ∧
    c9cert.domainDaysLeft < 30 ∧
    c9cert.isMatch = false ∧
    30 ≤ c9cert.daysRemaining ∧
    c9cert.status = StatusActive ∧
    c9settings.notifyOnExpiry = true ∧
    nsPerDay ≤ 10 * nsPerDay - c9cert.lastAlertTime ∧
    (checkAndNotify c9cert c9settings (10 * nsPerDay)).delivered = false := by
  decide

/-- C9 (amended): the registration-expiry and hostname-mismatch conditions
are evaluated and their reasons are carried in a delivered alert, but only
when an SSL-expiry or connection-error condition also holds; here, for a
non-ignored host outside the anti-spam window with notifications enabled,
whose certificate is inside the SSL-expiry window and whose registration
days-left is below 30 with a hostname mismatch, an alert is delivered and
contains both the registration reason and the mismatch reason. -/
theorem regMismatch_C9_amended (cert : SSLCert) (s : NotificationSettings) (now : Int)
    (hig : cert.isIgnored = false)
    (hna : cert.notAfter ≠ 0)
    (hcs : cert.status ≠ StatusConnectionError)
    (hssl : cert.daysRemaining < 30)
    (hreg0 : cert.domainExpiryDate ≠ 0)
    (hreg1 : cert.domainDaysLeft < 30)
    (hreg2 : 0 ≤ cert.domainDaysLeft)
    (hmm0 : cert.isMatch = false)
    (hmm1 : cert.status ≠ StatusUnresolvable)
    (hspam : nsPerDay ≤ now - cert.lastAlertTime)
    (hen : s.notifyOnExpiry = true) :
    (checkAndNotify cert s now).delivered = true ∧
    ("域名註冊剩餘 " ++ toString cert.domainDaysLeft ++ " 天") ∈
      (checkAndNotify cert s now).reasons ∧
    "❌ 憑證錯誤 (Hostname Mismatch)" ∈ (checkAndNotify cert s now).reasons := by
  have hsp : ¬(now - cert.lastAlertTime < nsPerDay) := by omega
  by_cases hd : 0 ≤ cert.daysRemaining
  · simp [checkAndNotify, collectAlertReasons, hig, hna, hcs, hssl, hd,
      hreg0, hreg1, hreg2, hmm0, hmm1, hen, hsp]
  · have hdneg : cert.daysRemaining < 0 := by omega
    simp [checkAndNotify, collectAlertReasons, hig, hna, hcs, hd, hdneg,
      hreg0, hreg1, hreg2, hmm0, hmm1, hen, hsp]

theorem regMismatch_C9_witness :
    (checkAndNotify c9certLow c9settings (10 * nsPerDay)).delivered = true ∧
    ("域名註冊剩餘 " ++ toString c9certLow.domainDaysLeft ++ " 天") ∈
      (checkAndNotify c9certLow c9settings (10 * nsPerDay)).reasons ∧
    "❌ 憑證錯誤 (Hostname Mismatch)" ∈
      (checkAndNotify c9certLow c9settings (10 * nsPerDay)).reasons :=
  regMismatch_C9_amended c9certLow c9settings (10 * nsPerDay) (by decide) (by decide)
    (by decide) (by decide) (by decide) (by decide) (by decide) (by decide)
    (by decide) (by decide) (by decide)

theorem upsertStore_preserves (cert : SSLCert) (now : Int) (store : List SSLCert) :
    ∀ (i : Nat) (d0 : SSLCert), store[i]? = some d0 →
      ((upsertStore cert now store)[i]?.map fun d => (d.isIgnored, d.autoRenew)) =
        some (d0.isIgnored, d0.autoRenew) := by
  induction store with
  | nil => intro i d0 h; simp at h
  | cons d ds ih =>
    intro i d0 h
    unfold upsertStore
    split_ifs with hm
    · cases i with
      | zero =>
        simp only [List.getElem?_cons_zero, Option.some.injEq] at h
        subst h
        simp [upsertSet]
      | succ j =>
        simp only [List.getElem?_cons_succ] at h ⊢
        simp [h]
    · cases i with
      | zero =>
        simp only [List.getElem?_cons_zero, Option.some.injEq] at h
        subst h
        simp
      | succ j =>
        simp only [List.getElem?_cons_succ] at h ⊢
        exact ih j d0 h

theorem updateCertInfoStore_preserves (cert : SSLCert) (now : Int) (store : List SSLCert) :
    ∀ (i : Nat) (d0 : SSLCert), store[i]? = some d0 →
      ((updateCertInfoStore cert now store)[i]?.map fun d => (d.isIgnored, d.autoRenew)) =
        some (d0.isIgnored, d0.autoRenew) := by
  induction store with
  | nil => intro i d0 h; simp at h
  | cons d ds ih =>
    intro i d0 h
    unfold updateCertInfoStore
    split_ifs with hm
    · cases i with
      | zero =>
        simp only [List.getElem?_cons_zero, Option.some.injEq] at h
        subst h
        simp [updateCertInfoSet]
      | succ j =>
        simp only [List.getElem?_cons_succ] at h ⊢
        simp [h]
    · cases i with
      | zero =>
        simp only [List.getElem?_cons_zero, Option.some.injEq] at h
        subst h
        simp
      | succ j =>
        simp only [List.getElem?_cons_succ] at h ⊢
        exact ih j d0 h

theorem scanOne_userFields (env : ScanEnv) (oldC : SSLCert) :
    (scanOne env oldC).cert.isIgnored = oldC.isIgnored ∧
    (scanOne env oldC).cert.autoRenew = oldC.autoRenew := by
  constructor
  · show (syncWhois env
        (inheritConfig (performNetworkScan env.probe oldC.domainName oldC.port) oldC)
        oldC).isIgnored = oldC.isIgnored
    rw [(syncWhois_frame env _ oldC).1, (inheritConfig_flags _ oldC).1]
  · show (syncWhois env
        (inheritConfig (performNetworkScan env.probe oldC.domainName oldC.port) oldC)
        oldC).autoRenew = oldC.autoRenew
    rw [(syncWhois_frame env _ oldC).2.1, (inheritConfig_flags _ oldC).2.1]

theorem scanOne_port (env : ScanEnv) (oldC : SSLCert) (h : oldC.port ≠ 0) :
    (scanOne env oldC).cert.port = oldC.port := by
  have hp : (performNetworkScan env.probe oldC.domainName oldC.port).port = oldC.port := by
    rw [performNetworkScan_port, if_neg h]
  show (syncWhois env
      (inheritConfig (performNetworkScan env.probe oldC.domainName oldC.port) oldC)
      oldC).port = oldC.port
  rw [(syncWhois_frame env _ oldC).2.2.1,
    inheritConfig_port _ _ (by rw [hp]; exact h), hp]

/-- C2 (counterexample): the pending Upsert of the record source overwrites the
user-set monitoring port — storing a provider record (whose port is the Go
zero value) over a host whose persisted port is 8443 leaves the stored port
at 0, while the ignored and auto-renew flags survive. -/
theorem userFields_C2_counterexample :
    c2doc.port = 8443 ∧ c2doc.isIgnored = true ∧ c2doc.autoRenew = true ∧
    ((upsertStore c2rs 5 [c2doc]).map fun d => d.port) = [0] ∧
    ((upsertStore c2rs 5 [c2doc]).map fun d => d.isIgnored) = [true] ∧
    ((upsertStore c2rs 5 [c2doc]).map fun d => d.autoRenew) = [true] := by
  decide

/-- C2 (amended): the ignored flag and the auto-renew flag retain their
prior persisted values across the record-source Upsert, the streaming merge
and the probe-result persist (their fields are absent from both `$set`
clauses and inherited by the merge), and a fresh insert defaults the
ignored flag to false; the monitoring port is preserved by the merge and
the probe persist whenever it is non-zero, but the record-source Upsert
rewrites the stored port to the port of the fetched record (the Go zero value),
so the port does not survive that path. -/
theorem userFields_C2_amended (cert : SSLCert) (now : Int) (store : List SSLCert)
    (i : Nat) (d0 : SSLCert) (env : ScanEnv) (oldC : SSLCert)
    (h : store[i]? = some d0) (hport : oldC.port ≠ 0) :
    ((upsertStore cert now store)[i]?.map fun d => (d.isIgnored, d.autoRenew)) =
      some (d0.isIgnored, d0.autoRenew) ∧
    ((updateCertInfoStore cert now store)[i]?.map fun d => (d.isIgnored, d.autoRenew)) =
      some (d0.isIgnored, d0.autoRenew) ∧
    (upsertInsertDoc cert now).isIgnored = false ∧
    (scanOne env oldC).cert.isIgnored = oldC.isIgnored ∧
    (scanOne env oldC).cert.autoRenew = oldC.autoRenew ∧
    (scanOne env oldC).cert.port = oldC.port :=
  ⟨upsertStore_preserves cert now store i d0 h,
   updateCertInfoStore_preserves cert now store i d0 h,
   rfl,
   (scanOne_userFields env oldC).1,
   (scanOne_userFields env oldC).2,
   scanOne_port env oldC hport⟩

theorem userFields_C2_witness :
    ((upsertStore c2rs 5 [c2doc])[0]?.map fun d => (d.isIgnored, d.autoRenew)) =
      some (c2doc.isIgnored, c2doc.autoRenew) ∧
    ((updateCertInfoStore c2rs 5 [c2doc])[0]?.map fun d => (d.isIgnored, d.autoRenew)) =
      some (c2doc.isIgnored, c2doc.autoRenew) ∧
    (upsertInsertDoc c2rs 5).isIgnored = false ∧
    (scanOne wScanEnv c2doc).cert.isIgnored = c2doc.isIgnored ∧
    (scanOne wScanEnv c2doc).cert.autoRenew = c2doc.autoRenew ∧
    (scanOne wScanEnv c2doc).cert.port = c2doc.port :=
  userFields_C2_amended c2rs 5 [c2doc] 0 c2doc wScanEnv c2doc (by decide) (by decide)

theorem streamEvents_cases (env : SyncEnv) (dbMap : String → Option SSLCert)
    (ez : String → Bool) (cf : List SSLCert) :
    ∀ e ∈ processUpsertsStreamEvents env dbMap ez cf,
      e.etype ≠ EvType.zoneAdd ∧ e.etype ≠ EvType.zoneDelete ∧
      e.etype ≠ EvType.delete ∧
      (e.etype = EvType.add → ∃ x ∈ cf, ez x.zoneName = true ∧ e.target = x.domainName) := by
  intro e he
  unfold processUpsertsStreamEvents at he
  rcases List.mem_flatMap.1 he with ⟨x, hx, hex⟩
  have hx2 := (List.mem_filter.1 hx).1
  obtain ⟨h1, h2, h3, h4⟩ := cronProcessHost_add_event env dbMap ez x e hex
  exact ⟨h1, h2, h3, fun ha => ⟨x, hx2, (h4 ha).1, (h4 ha).2⟩⟩

theorem filter_zoneAdd_of_ne (l : List OpEvent) (Z : String)
    (h : ∀ e ∈ l, e.etype ≠ EvType.zoneAdd) :
    (l.filter fun e => decide (e.etype = EvType.zoneAdd ∧ e.target = Z)) = [] := by
  rw [List.filter_eq_nil_iff]
  intro e he
  simp [h e he]

theorem filter_zoneAdd_single (l : List String) (Z : String) (det : String → String)
    (hnd : l.Nodup) (hZ : Z ∈ l) :
    ((l.map fun z =>
        ({ etype := EvType.zoneAdd, target := z, details := det z } : OpEvent)).filter
          fun e => decide (e.etype = EvType.zoneAdd ∧ e.target = Z)) =
      [{ etype := EvType.zoneAdd, target := Z, details := det Z }] := by
  induction l with
  | nil => simp at hZ
  | cons a l ih =>
    rcases List.nodup_cons.1 hnd with ⟨hna, hndl⟩
    by_cases haZ : a = Z
    · subst haZ
      rw [List.map_cons, List.filter_cons, if_pos (by simp)]
      congr 1
      rw [List.filter_eq_nil_iff]
      intro e hemem
      rcases List.mem_map.1 hemem with ⟨z, hz, rfl⟩
      simp only [decide_eq_true_eq, not_and]
      intro _
      exact fun hzZ => hna (hzZ ▸ hz)
    · rcases List.mem_cons.1 hZ with h | h
      · exact absurd h.symm haZ
      · simp only [List.map_cons, List.filter_cons]
        rw [if_neg (by simp [haZ])]
        exact ih hndl h

/-- C8: new-zone notification suppression — for a non-empty zone Z unknown
to the persisted set, all of whose provider records are eligible and fresh,
with exactly 3 records in the result of this run, the run emits exactly one
zone-discovered event for Z, carrying subdomain count 3, and emits no
per-host added event for any host of Z. -/
theorem newZone_C8 (env : SyncEnv) (db cf : List SSLCert) (Z : String)
    (hZ : Z ≠ "")
    (hnew : Z ∉ zonesOf db)
    (hcount : countSubdomains cf Z = 3)
    (helig : ∀ d ∈ cf, d.zoneName = Z → shouldSkipDomain d.domainName = false)
    (hfresh : ∀ d ∈ cf, d.zoneName = Z → dbMapOf db d.domainName = none)
    (huniq : ∀ d ∈ cf, ∀ x ∈ cf, x.domainName = d.domainName → x.zoneName = d.zoneName) :
    ((performSync env db cf).events.filter fun e =>
        decide (e.etype = EvType.zoneAdd ∧ e.target = Z)) =
      [{ etype := EvType.zoneAdd, target := Z, details := zoneAddDetails 3 }] ∧
    (∀ e ∈ (performSync env db cf).events, e.etype = EvType.add →
      ∀ d ∈ cf, d.zoneName = Z → e.target ≠ d.domainName) := by
  have hx : ∃ d ∈ cf, d.zoneName = Z := by
    have h3 : (cf.filter fun d => decide (d.zoneName = Z)) ≠ [] := by
      intro h0
      unfold countSubdomains at hcount
      rw [h0] at hcount
      simp at hcount
    rcases List.exists_mem_of_ne_nil _ h3 with ⟨d, hd⟩
    rcases List.mem_filter.1 hd with ⟨hdc, hdz⟩
    exact ⟨d, hdc, by simpa using hdz⟩
  have hcf : cf ≠ [] := by
    rcases hx with ⟨d, hd, _⟩
    exact List.ne_nil_of_mem hd
  have hZcf : Z ∈ zonesOf cf := (mem_zonesOf cf Z).2 ⟨hZ, hx⟩
  have hezZ : existingZonesOf db Z = false := existingZonesOf_eq_false db Z hZ hnew
  have hev : (performSync env db cf).events =
      processUpsertsStreamEvents env (dbMapOf db) (existingZonesOf db) cf ++
        detectZoneChanges cf db ++ (processDeletions cf db).2 := by
    simp only [performSync]
    rw [if_neg (fun hc => hcf hc.1)]
  rw [hev]
  constructor
  · rw [List.filter_append, List.filter_append]
    have hstream : ((processUpsertsStreamEvents env (dbMapOf db) (existingZonesOf db)
        cf).filter fun e => decide (e.etype = EvType.zoneAdd ∧ e.target = Z)) = [] := by
      refine filter_zoneAdd_of_ne _ Z fun e he => ?_
      exact (streamEvents_cases env (dbMapOf db) (existingZonesOf db) cf e he).1
    have hdelev : (((processDeletions cf db).2).filter
        fun e => decide (e.etype = EvType.zoneAdd ∧ e.target = Z)) = [] := by
      refine filter_zoneAdd_of_ne _ Z fun e he => ?_
      unfold processDeletions at he
      simp only [] at he
      rcases List.mem_map.1 he with ⟨d, _, rfl⟩
      simp
    have hzone : ((detectZoneChanges cf db).filter
        fun e => decide (e.etype = EvType.zoneAdd ∧ e.target = Z)) =
        [{ etype := EvType.zoneAdd, target := Z, details := zoneAddDetails 3 }] := by
      unfold detectZoneChanges
      rw [List.filter_append]
      have hA := filter_zoneAdd_single
        ((zonesOf cf).filter fun z => decide (z ∉ zonesOf db)) Z
        (fun z => zoneAddDetails (countSubdomains cf z))
        (List.Nodup.filter _ (List.nodup_dedup _))
        (List.mem_filter.2 ⟨hZcf, by simpa using hnew⟩)
      simp only [] at hA
      rw [hcount] at hA
      rw [hA]
      rw [filter_zoneAdd_of_ne _ Z fun e he => by
        rcases List.mem_map.1 he with ⟨z, _, rfl⟩
        simp]
      simp
    rw [hstream, hdelev, hzone, List.nil_append, List.append_nil]
  · intro e he hadd d hd hdz
    rcases List.mem_append.1 he with he2 | he3
    · rcases List.mem_append.1 he2 with he4 | he5
      · obtain ⟨_, _, _, h4⟩ :=
          streamEvents_cases env (dbMapOf db) (existingZonesOf db) cf e he4
        rcases h4 hadd with ⟨x, hxcf, hxez, hxtarget⟩
        intro htarget
        have hxz : x.zoneName = d.zoneName :=
          huniq d hd x hxcf (by rw [← hxtarget, htarget])
        rw [hxz, hdz, hezZ] at hxez
        exact Bool.false_ne_true hxez
      · exfalso
        unfold detectZoneChanges at he5
        rcases List.mem_append.1 he5 with he6 | he6 <;>
          rcases List.mem_map.1 he6 with ⟨z, _, rfl⟩ <;>
          simp at hadd
    · exfalso
      unfold processDeletions at he3
      simp only [] at he3
      rcases List.mem_map.1 he3 with ⟨x, _, rfl⟩
      simp at hadd

theorem newZone_C8_witness :
    ((performSync c8env c8db c8cf).events.filter fun e =>
        decide (e.etype = EvType.zoneAdd ∧ e.target = "new.example.com")) =
      [{ etype := EvType.zoneAdd, target := "new.example.com",
         details := zoneAddDetails 3 }] :=
  (newZone_C8 c8env c8db c8cf "new.example.com" (by decide) (by decide) (by decide)
    (by decide) (by decide) (by decide)).1

end CertManager
